import Mathlib

/-!
# Verification of the TrainAlerts backend (src/server.js)

Shallow embedding of the subscription registry and the broadcast
(`/send-test-notification`) handler of `src/server.js`, together with
theorems settling the specification claims.

Modelling choices:
* A subscription record is the structured value the callers send:
  an `endpoint` string plus the `keys` material (`p256dh`, `auth`).
  The code compares records with `JSON.stringify(a) === JSON.stringify(b)`;
  for records of this shape (`JSON.stringify` escapes quotes, so it is
  injective on the structured value) string equality coincides with
  structural equality, which we use directly.
* The external `webpush.sendNotification` call is a black box: a
  `deliver` function from records to a `DeliveryOutcome` (resolve, or
  reject with an error that optionally carries a `statusCode` and always
  carries a `message`). The handler is a pure function of the registry
  and this `deliver` parameter.
* JavaScript `async`/`Promise.allSettled` sequencing is modelled by
  ordinary sequential evaluation: every mapped promise settles (the
  `catch` inside the mapper is total, so no promise rejects), and the
  filter pass runs only after the whole `results` list exists.
-/

/-- A push subscription record: `endpoint` plus the `keys` material
(`p256dh`, `auth`), as in the spec scenario
`{endpoint: "...", keys:{p256dh:"k1", auth:"a1"}}`. -/
structure SubscriptionRecord where
  endpoint : String
  p256dh : String
  auth : String
deriving DecidableEq, Repr

/-- The registry: `let subscriptions = []` in `src/server.js`, an ordered
in-memory list mutated by the two handlers. -/
abbrev Registry := List SubscriptionRecord

/-- What the `/subscribe` handler produces: the new registry plus the
HTTP status and JSON message it responds with. -/
structure SubscribeResult where
  registry : Registry
  status : Nat
  message : String
deriving DecidableEq, Repr

/-- `app.post('/subscribe', ...)` (src/server.js lines 41-56):
if no stored record is `JSON.stringify`-equal to the incoming one, push it
and answer `201`; otherwise leave the registry alone and answer `200`. -/
def subscribe (subs : Registry) (r : SubscriptionRecord) : SubscribeResult :=
  if !(subs.any (fun sub => sub == r)) then
    { registry := subs ++ [r]
      status := 201
      message := "Subscription added successfully." }
  else
    { registry := subs
      status := 200
      message := "Subscription already exists." }

/-- Outcome of one external `webpush.sendNotification(sub, payload)` call:
the promise resolves, or it rejects with an error whose `statusCode` may be
absent (transport errors, malformed key material, ...) and whose `message`
string is always present. -/
inductive DeliveryOutcome
  | delivered
  | error (statusCode : Option Nat) (message : String)
deriving DecidableEq, Repr

/-- The `error` field of the object the mapper returns on failure:
`error.statusCode` in the 410/404 branch, `error.statusCode || error.message`
in the other branch. -/
inductive ErrorInfo
  | code (n : Nat)
  | msg (s : String)
deriving DecidableEq, Repr

/-- The `status` field of the value each mapped promise fulfils with:
the string `'success'` or `'failed'` in the code. -/
inductive AttemptStatus
  | success
  | failed
deriving DecidableEq, Repr

/-- The value a single mapped promise fulfils with:
`{status: 'success'}` or `{status: 'failed', subscription: sub, error: ...}`. -/
structure AttemptValue where
  status : AttemptStatus
  subscription : Option SubscriptionRecord
  error : Option ErrorInfo
deriving DecidableEq, Repr

/-- JavaScript `error.statusCode || error.message`: the status code when it
is present and truthy (`0` is falsy), the message otherwise. -/
def jsStatusOrMessage (sc : Option Nat) (m : String) : ErrorInfo :=
  match sc with
  | some n => if n = 0 then ErrorInfo.msg m else ErrorInfo.code n
  | none => ErrorInfo.msg m

/-- Body of the `subscriptions.map(async (sub, index) => ...)` mapper
(src/server.js lines 76-92). The `try` either succeeds, returning
`{status: 'success'}`, or the `catch` inspects `error.statusCode`:
on `410`/`404` it returns `{status: 'failed', subscription: sub,
error: error.statusCode}`, and on any other error it returns
`{status: 'failed', subscription: sub,
error: error.statusCode || error.message}`. Both branches return
`status: 'failed'`. -/
def sendAttempt (sub : SubscriptionRecord) (outcome : DeliveryOutcome) :
    AttemptValue :=
  match outcome with
  | DeliveryOutcome.delivered =>
    { status := AttemptStatus.success, subscription := none, error := none }
  | DeliveryOutcome.error sc m =>
    if sc == some 410 || sc == some 404 then
      { status := AttemptStatus.failed
        subscription := some sub
        error := some (match sc with
          | some n => ErrorInfo.code n
          | none => ErrorInfo.msg m) }
    else
      { status := AttemptStatus.failed
        subscription := some sub
        error := some (jsStatusOrMessage sc m) }

/-- One element of `results = await Promise.allSettled(sendPromises)`.
The mapper catches every error, so in this program every promise fulfils;
`rejected` is kept in the type to model the general shape of
`allSettled` results. -/
inductive SettledResult
  | fulfilled (value : AttemptValue)
  | rejected
deriving DecidableEq, Repr

/-- The filter test applied to one settled result:
`results[index].status === 'fulfilled' &&
 results[index].value.status !== 'failed'`. -/
def settledKeep : SettledResult → Bool
  | SettledResult.fulfilled v => v.status != AttemptStatus.failed
  | SettledResult.rejected => false

/-- `results[index]` lookup followed by the filter test; an out-of-range
index never occurs in the handler (`results` has the same length as the
snapshot being filtered). -/
def keepAt (results : List SettledResult) (i : Nat) : Bool :=
  match results[i]? with
  | some res => settledKeep res
  | none => false

/-- `subscriptions.filter((sub, index) => ...)` (src/server.js lines 96-99):
walk the snapshot with its index, keeping each record whose settled result
passes the filter test. -/
def pruneFrom (results : List SettledResult) : Nat → Registry → Registry
  | _, [] => []
  | i, s :: t =>
    if keepAt results i then s :: pruneFrom results (i + 1) t
    else pruneFrom results (i + 1) t

/-- The fixed notification payload built by the handler
(src/server.js lines 66-72). -/
structure NotificationPayload where
  title : String
  body : String
  icon : String
  url : String
deriving DecidableEq, Repr

/-- The literal payload value in the code. -/
def notificationPayload : NotificationPayload :=
  { title := "Train Alert: Test Notification!"
    body := "This is a test alert from your backend server for your PWA."
    icon := "https://trainalert.netlify.app/icons/icon-192x192.png"
    url := "https://trainalert.netlify.app" }

/-- What one `/send-test-notification` call produces: the post-broadcast
registry, the HTTP status, the JSON message, the `remainingSubscriptions`
field (absent on the empty-registry response), and the settled results of
the delivery attempts that were made. -/
structure BroadcastResult where
  registry : Registry
  status : Nat
  message : String
  remainingSubscriptions : Option Nat
  attempts : List SettledResult
deriving Repr

/-- `app.post('/send-test-notification', ...)` (src/server.js lines 59-103):
empty registry answers `404` with no attempts; otherwise one
`webpush.sendNotification` attempt per record via the mapper, a barrier
(`Promise.allSettled`) collecting every settled result, then the index
filter reassigns `subscriptions` and the handler answers `200` with the
remaining count. -/
def broadcastTest (deliver : SubscriptionRecord → DeliveryOutcome)
    (subs : Registry) : BroadcastResult :=
  if subs.length = 0 then
    { registry := subs
      status := 404
      message := "No active subscriptions to send to."
      remainingSubscriptions := none
      attempts := [] }
  else
    let results := subs.map
      (fun sub => SettledResult.fulfilled (sendAttempt sub (deliver sub)))
    let remaining := pruneFrom results 0 subs
    { registry := remaining
      status := 200
      message := "Test notifications sent (or attempted)!"
      remainingSubscriptions := some remaining.length
      attempts := results }

/-- One externally triggered operation on the process state: a
`/subscribe` call or a `/send-test-notification` call (the latter
parameterised by the behaviour of the external delivery operation during
that call). -/
inductive Op
  | add (r : SubscriptionRecord)
  | broadcast (deliver : SubscriptionRecord → DeliveryOutcome)

/-- Effect of one operation on the registry. -/
def applyOp (subs : Registry) : Op → Registry
  | Op.add r => (subscribe subs r).registry
  | Op.broadcast d => (broadcastTest d subs).registry

/-- Registry reached by a sequence of operations from the initial empty
registry (`let subscriptions = []`). -/
def runOps (ops : List Op) : Registry :=
  ops.foldl applyOp []

/-! ## Helper lemmas about the prune pass -/

/-- Looking up the settled result at a record's own index. -/
theorem keepAt_append (pre : List SettledResult) (x : SettledResult)
    (post : List SettledResult) :
    keepAt (pre ++ x :: post) pre.length = settledKeep x := by
  simp [keepAt, List.getElem?_append_right (le_refl pre.length)]

/-- When the settled results are exactly the per-record values `g`,
the index-driven filter is the ordinary filter by `settledKeep ∘ g`. -/
theorem pruneFrom_eq_filter (g : SubscriptionRecord → SettledResult)
    (pre : List SettledResult) (subs : Registry) :
    pruneFrom (pre ++ subs.map g) pre.length subs
      = subs.filter (fun s => settledKeep (g s)) := by
  induction subs generalizing pre with
  | nil => simp [pruneFrom]
  | cons s t ih =>
    have hR : (pre ++ [g s]) ++ t.map g = pre ++ (s :: t).map g := by
      simp
    have hlen : (pre ++ [g s]).length = pre.length + 1 := by simp
    have h2 := ih (pre ++ [g s])
    rw [hR, hlen] at h2
    have h1 : keepAt (pre ++ (s :: t).map g) pre.length = settledKeep (g s) := by
      simpa using keepAt_append pre (g s) (t.map g)
    rw [List.filter_cons]
    simp only [pruneFrom, h1, h2]

/-- The prune pass over the mapped results, from index `0`. -/
theorem pruneFrom_map (g : SubscriptionRecord → SettledResult)
    (subs : Registry) :
    pruneFrom (subs.map g) 0 subs
      = subs.filter (fun s => settledKeep (g s)) :=
  pruneFrom_eq_filter g [] subs

/-- The filter test on a record's own settled result: the record is kept
exactly when its delivery attempt resolved. Both branches of the `catch`
return `status: 'failed'`, so every rejecting attempt fails the test,
whatever its status code. -/
theorem settledKeep_sendAttempt (s : SubscriptionRecord)
    (o : DeliveryOutcome) :
    settledKeep (SettledResult.fulfilled (sendAttempt s o))
      = (o == DeliveryOutcome.delivered) := by
  cases o with
  | delivered => rfl
  | error sc m =>
    simp only [sendAttempt]
    split <;> rfl

/-- On a non-empty registry the post-broadcast registry is the snapshot
filtered down to the records whose delivery attempt resolved. -/
theorem broadcastTest_registry (deliver : SubscriptionRecord → DeliveryOutcome)
    (subs : Registry) (h : subs ≠ []) :
    (broadcastTest deliver subs).registry
      = subs.filter (fun s => deliver s == DeliveryOutcome.delivered) := by
  have hlen : ¬ subs.length = 0 := by simpa using h
  simp only [broadcastTest, if_neg hlen]
  rw [pruneFrom_map]
  congr 1
  funext s
  exact settledKeep_sendAttempt s (deliver s)

/-- Membership in the post-broadcast registry. -/
theorem mem_broadcastTest_registry
    (deliver : SubscriptionRecord → DeliveryOutcome) (subs : Registry)
    (r : SubscriptionRecord) :
    r ∈ (broadcastTest deliver subs).registry
      ↔ r ∈ subs ∧ deliver r = DeliveryOutcome.delivered := by
  cases subs with
  | nil => simp [broadcastTest]
  | cons a t =>
    rw [broadcastTest_registry _ _ (by simp)]
    simp [List.mem_filter]

/-- Broadcasting never adds records: the result is a sublist of the
snapshot. -/
theorem broadcastTest_registry_sublist
    (deliver : SubscriptionRecord → DeliveryOutcome) (subs : Registry) :
    List.Sublist (broadcastTest deliver subs).registry subs := by
  cases subs with
  | nil => simp [broadcastTest]
  | cons a t =>
    rw [broadcastTest_registry _ _ (by simp)]
    exact List.filter_sublist _

/-! ## Helper lemmas about subscribe -/

/-- `/subscribe` on an already-stored record: registry untouched, `200`. -/
theorem subscribe_of_mem (subs : Registry) (r : SubscriptionRecord)
    (h : r ∈ subs) :
    subscribe subs r
      = { registry := subs, status := 200
          message := "Subscription already exists." } := by
  have ha : subs.any (fun sub => sub == r) = true :=
    List.any_eq_true.mpr ⟨r, h, by simp⟩
  simp [subscribe, ha]

/-- `/subscribe` on a new record: appended to the registry, `201`. -/
theorem subscribe_of_not_mem (subs : Registry) (r : SubscriptionRecord)
    (h : r ∉ subs) :
    subscribe subs r
      = { registry := subs ++ [r], status := 201
          message := "Subscription added successfully." } := by
  have ha : subs.any (fun sub => sub == r) = false := by
    rw [List.any_eq_false]
    intro x hx
    simp only [beq_iff_eq]
    exact fun he => h (he ▸ hx)
  simp [subscribe, ha]

/-- `/subscribe` keeps the registry duplicate-free. -/
theorem subscribe_registry_nodup (subs : Registry) (h : subs.Nodup)
    (r : SubscriptionRecord) : (subscribe subs r).registry.Nodup := by
  by_cases hmem : r ∈ subs
  · rw [subscribe_of_mem subs r hmem]
    exact h
  · rw [subscribe_of_not_mem subs r hmem]
    simp [List.nodup_append, h, hmem]

/-- Every single operation keeps the registry duplicate-free. -/
theorem applyOp_nodup (subs : Registry) (h : subs.Nodup) (op : Op) :
    (applyOp subs op).Nodup := by
  cases op with
  | add r => exact subscribe_registry_nodup subs h r
  | broadcast d => exact (broadcastTest_registry_sublist d subs).nodup h

/-- Folding any operation sequence over a duplicate-free registry keeps it
duplicate-free. -/
theorem foldl_applyOp_nodup (ops : List Op) (init : Registry)
    (h : init.Nodup) : (ops.foldl applyOp init).Nodup := by
  induction ops generalizing init with
  | nil => exact h
  | cons op t ih => exact ih _ (applyOp_nodup init h op)

/-- A record already stored in the registry is found by the duplicate
check, so a repeated `/subscribe` leaves the record in place. -/
theorem mem_subscribe_registry_self (subs : Registry)
    (r : SubscriptionRecord) : r ∈ (subscribe subs r).registry := by
  by_cases h : r ∈ subs
  · rw [subscribe_of_mem subs r h]
    exact h
  · rw [subscribe_of_not_mem subs r h]
    simp

/-! ## Concrete fixtures for witnesses and counterexamples -/

/-- The record from the spec scenario. -/
def recA : SubscriptionRecord :=
  { endpoint := "https://push.example/a", p256dh := "k1", auth := "a1" }

/-- Same endpoint as `recA`, rotated key material. -/
def recB : SubscriptionRecord :=
  { endpoint := "https://push.example/a", p256dh := "k2", auth := "a2" }

/-- A record with a different endpoint. -/
def recC : SubscriptionRecord :=
  { endpoint := "https://push.example/c", p256dh := "k3", auth := "a3" }

/-- External delivery rejecting every attempt with a 500 error. -/
def deliver500 : SubscriptionRecord → DeliveryOutcome :=
  fun _ => DeliveryOutcome.error (some 500) "Internal Server Error"

/-- External delivery rejecting every attempt with a transport error
carrying no `statusCode`. -/
def deliverNet : SubscriptionRecord → DeliveryOutcome :=
  fun _ => DeliveryOutcome.error none "socket hang up"

/-- External delivery rejecting every attempt with a 410 (Gone) error. -/
def deliver410 : SubscriptionRecord → DeliveryOutcome :=
  fun _ => DeliveryOutcome.error (some 410) "push subscription has unsubscribed or expired"

/-- External delivery resolving every attempt. -/
def deliverOk : SubscriptionRecord → DeliveryOutcome :=
  fun _ => DeliveryOutcome.delivered

/-! ## Claims -/

/-- C1, counterexample: a record whose delivery attempt fails with
statusCode 500 does NOT remain in the registry after the broadcast — the
`catch` block returns `status: 'failed'` for every error, and the filter
drops every failed record, so pruning is not restricted to 410/404 as the
claim states. -/
theorem claim1_counterexample :
    deliver500 recA = DeliveryOutcome.error (some 500) "Internal Server Error"
      ∧ recA ∉ (broadcastTest deliver500 [recA]).registry := by
  constructor
  · rfl
  · decide

/-- C1, amended: for every broadcast over a registry containing a record,
the record remains after the broadcast if and only if its delivery attempt
resolved; equivalently, it is removed if and only if its attempt's outcome
is `Failed`, with any status code or none at all. -/
theorem claim1_prune_iff_failed
    (deliver : SubscriptionRecord → DeliveryOutcome) (subs : Registry)
    (r : SubscriptionRecord) (hr : r ∈ subs) :
    r ∈ (broadcastTest deliver subs).registry
      ↔ deliver r = DeliveryOutcome.delivered := by
  rw [mem_broadcastTest_registry]
  exact and_iff_right hr

/-- C1, witness: the amended theorem at a concrete input. -/
theorem claim1_witness :
    recA ∈ (broadcastTest deliverOk [recA]).registry :=
  (claim1_prune_iff_failed deliverOk [recA] recA (by decide)).mpr rfl

/-- C2, counterexample: a record whose delivery attempt raises an error
carrying no statusCode is NOT still present after the broadcast — the
second `return` of the `catch` block also yields `status: 'failed'`, so
the filter removes the record. -/
theorem claim2_counterexample :
    deliverNet recA = DeliveryOutcome.error none "socket hang up"
      ∧ recA ∉ (broadcastTest deliverNet [recA]).registry := by
  constructor
  · rfl
  · decide

/-- C2, amended: a delivery attempt that raises an error carrying no
statusCode is a failure like any other, and the record is removed from
the registry by the broadcast. -/
theorem claim2_transport_error_pruned
    (deliver : SubscriptionRecord → DeliveryOutcome) (subs : Registry)
    (r : SubscriptionRecord) (m : String)
    (hd : deliver r = DeliveryOutcome.error none m) :
    r ∉ (broadcastTest deliver subs).registry := by
  rw [mem_broadcastTest_registry]
  rintro ⟨-, h⟩
  rw [hd] at h
  exact DeliveryOutcome.noConfusion h

/-- C2, witness: the amended theorem at a concrete input. -/
theorem claim2_witness :
    recA ∉ (broadcastTest deliverNet [recA, recC]).registry :=
  claim2_transport_error_pruned deliverNet [recA, recC] recA
    "socket hang up" rfl

/-- C3, counterexample: from the empty registry, adding two records with
the same endpoint but different key material stores both — the duplicate
check compares whole records, so the reachable state
`runOps [add recA, add recB]` holds two records with endpoint
`https://push.example/a`. -/
theorem claim3_counterexample :
    runOps [Op.add recA, Op.add recB] = [recA, recB]
      ∧ recA.endpoint = recB.endpoint
      ∧ ¬ ((runOps [Op.add recA, Op.add recB]).map
            SubscriptionRecord.endpoint).Nodup := by
  refine ⟨by decide, rfl, by decide⟩

/-- C3, amended: at every reachable registry state (after any sequence of
add and broadcast operations starting from the empty registry), the
registry holds at most one record per distinct whole record value —
no two stored records are structurally equal — but not at most one per
endpoint, since records sharing an endpoint with different key material
coexist. -/
theorem claim3_registry_nodup (ops : List Op) : (runOps ops).Nodup :=
  foldl_applyOp_nodup ops [] List.nodup_nil

/-- C4: a record whose delivery attempt fails with statusCode 410 is no
longer in the registry after the broadcast. -/
theorem claim4_prune_on_410
    (deliver : SubscriptionRecord → DeliveryOutcome) (subs : Registry)
    (r : SubscriptionRecord) (m : String) (hr : r ∈ subs)
    (hd : deliver r = DeliveryOutcome.error (some 410) m) :
    r ∉ (broadcastTest deliver subs).registry := by
  rw [mem_broadcastTest_registry]
  rintro ⟨-, h⟩
  rw [hd] at h
  exact DeliveryOutcome.noConfusion h

/-- C4, witness: the theorem at a concrete input. -/
theorem claim4_witness :
    recA ∉ (broadcastTest deliver410 [recA]).registry :=
  claim4_prune_on_410 deliver410 [recA] recA
    "push subscription has unsubscribed or expired" (by decide) rfl

/-- C5: adding a record structurally identical to one already handled is a
no-op on the registry contents: adding `r` twice leaves exactly the
registry of adding it once, and in particular the same size. -/
theorem claim5_add_idempotent (subs : Registry) (r : SubscriptionRecord) :
    (subscribe (subscribe subs r).registry r).registry
        = (subscribe subs r).registry
      ∧ (subscribe (subscribe subs r).registry r).registry.length
        = (subscribe subs r).registry.length := by
  have hmem : r ∈ (subscribe subs r).registry :=
    mem_subscribe_registry_self subs r
  rw [subscribe_of_mem _ r hmem]
  exact ⟨rfl, rfl⟩

/-- C6: `/subscribe` answers `201` "added" exactly when no structurally
equal record is stored, `200` "already exists" exactly when one is, and a
second add of the same record answers "already exists". -/
theorem claim6_subscribe_outcomes (subs : Registry)
    (r : SubscriptionRecord) :
    (((subscribe subs r).status = 201
        ∧ (subscribe subs r).message = "Subscription added successfully.")
      ↔ r ∉ subs)
      ∧ (((subscribe subs r).status = 200
        ∧ (subscribe subs r).message = "Subscription already exists.")
      ↔ r ∈ subs)
      ∧ (subscribe (subscribe subs r).registry r).status = 200
      ∧ (subscribe (subscribe subs r).registry r).message
          = "Subscription already exists." := by
  have hsecond :=
    subscribe_of_mem _ r (mem_subscribe_registry_self subs r)
  by_cases h : r ∈ subs
  · rw [hsecond, subscribe_of_mem subs r h]
    simp [h]
  · rw [hsecond, subscribe_of_not_mem subs r h]
    simp [h]

/-- C7: broadcasting over the empty registry answers `404` with the
"no active subscriptions" message, makes no delivery attempt, and leaves
the registry unchanged. -/
theorem claim7_empty_broadcast
    (deliver : SubscriptionRecord → DeliveryOutcome) :
    broadcastTest deliver []
      = { registry := [], status := 404
          message := "No active subscriptions to send to."
          remainingSubscriptions := none, attempts := [] } := rfl

/-- C8: on a non-empty registry the handler always answers `200` with the
fixed message and the aggregate remaining count, whatever the outcome of
each individual delivery attempt — no attempt error reaches the caller. -/
theorem claim8_no_error_propagation
    (deliver : SubscriptionRecord → DeliveryOutcome) (subs : Registry)
    (h : subs ≠ []) :
    (broadcastTest deliver subs).status = 200
      ∧ (broadcastTest deliver subs).message
          = "Test notifications sent (or attempted)!"
      ∧ (broadcastTest deliver subs).remainingSubscriptions
          = some (broadcastTest deliver subs).registry.length := by
  have hlen : ¬ subs.length = 0 := by simpa using h
  simp [broadcastTest, hlen]

/-- C8, witness: the theorem at a concrete input on which every attempt
fails. -/
theorem claim8_witness :
    (broadcastTest deliver500 [recA]).status = 200
      ∧ (broadcastTest deliver500 [recA]).message
          = "Test notifications sent (or attempted)!"
      ∧ (broadcastTest deliver500 [recA]).remainingSubscriptions
          = some (broadcastTest deliver500 [recA]).registry.length :=
  claim8_no_error_propagation deliver500 [recA] (by decide)

/-- C9: the broadcast makes exactly one delivery attempt per record of the
snapshot — the settled results are the per-record attempt values in
snapshot order — so the number of attempts equals the snapshot length,
and the prune pass runs over the complete results list. -/
theorem claim9_one_attempt_per_record
    (deliver : SubscriptionRecord → DeliveryOutcome) (subs : Registry) :
    (broadcastTest deliver subs).attempts
        = subs.map
            (fun s => SettledResult.fulfilled (sendAttempt s (deliver s)))
      ∧ (broadcastTest deliver subs).attempts.length = subs.length := by
  cases subs with
  | nil => exact ⟨rfl, rfl⟩
  | cons a t =>
    have hlen : ¬ (a :: t).length = 0 := by simp
    constructor <;> simp [broadcastTest, hlen]

/-- C10: a broadcast never adds records — the post-broadcast registry is a
sublist (subset preserving relative order) of the pre-broadcast snapshot —
and on a non-empty registry the `remainingSubscriptions` field equals the
length of the post-broadcast registry. -/
theorem claim10_registry_shrinks
    (deliver : SubscriptionRecord → DeliveryOutcome) (subs : Registry) :
    List.Sublist (broadcastTest deliver subs).registry subs
      ∧ (subs ≠ [] →
        (broadcastTest deliver subs).remainingSubscriptions
          = some (broadcastTest deliver subs).registry.length) := by
  refine ⟨broadcastTest_registry_sublist deliver subs, fun h => ?_⟩
  have hlen : ¬ subs.length = 0 := by simpa using h
  simp [broadcastTest, hlen]

/-- C10, witness: the theorem at a concrete input. -/
theorem claim10_witness :
    List.Sublist (broadcastTest deliverNet [recB]).registry [recB]
      ∧ (broadcastTest deliverNet [recB]).remainingSubscriptions
          = some (broadcastTest deliverNet [recB]).registry.length :=
  ⟨(claim10_registry_shrinks deliverNet [recB]).1,
    (claim10_registry_shrinks deliverNet [recB]).2 (by decide)⟩
